import Mathlib

/-!
Verification of the Zoltar backend's dependency-aware status propagation and
recurrence scheduling engine (`zoltar_backend/crud.py`, `zoltar_backend/main.py`,
`zoltar_backend/models.py`), as a shallow embedding.

Conventions of the embedding:
* Instants are whole minutes since an arbitrary UTC epoch (`DT := Int`);
  all arithmetic the code performs on datetimes is addition of minute
  durations and comparison, which this representation captures exactly.
* The SQLAlchemy session/database is an explicit `DB` record; `commit` is
  value threading, a query is a pure function of the record.
* Sentinel-string results are kept as strings, mirroring the source.
* The association table `task_dependency` is stored as the relation the code
  actually manipulates: a pair `(a, b)` means "task `a` depends on task `b`"
  (`add_task_dependency(db, a, b, uid)` inserts it, `Task.dependency_tasks`
  of `a` reads the second components, the `dependent_tasks` of `b` reads the
  first components).  The physical column names in `models.py` are wired in
  the opposite orientation by the relationship's `primaryjoin`, but every
  reader and writer in `crud.py` goes through the relationship, so the
  functional meaning embedded here is the one the program has.
-/

namespace Zoltar

/-- Instants in UTC, measured in whole minutes since an arbitrary epoch. -/
abbrev DT := Int

/-- `models.TaskStatus`. -/
inductive TaskStatus where
  | pending
  | in_progress
  | completed
  | blocked
  | cancelled
deriving DecidableEq, Repr

/-- `models.ReminderType`. -/
inductive ReminderType where
  | one_time
  | recurring_scheduled
  | recurring_relative
deriving DecidableEq, Repr

/-- `models.ReminderActionType`. -/
inductive ReminderActionType where
  | triggered
  | completed
  | skipped
deriving DecidableEq, Repr

/-- `models.Task` (the columns the engine reads or writes). -/
structure Task where
  id : Nat
  title : String
  description : Option String := none
  status : TaskStatus
  due_date : Option DT := none
  project_id : Option Nat := none
  owner_id : Nat
  contact_id : Option Nat := none
  completed_at : Option DT := none
deriving DecidableEq, Repr

/-- `models.Reminder` (the columns the engine reads or writes). -/
structure Reminder where
  id : Nat
  title : Option String := none
  description : Option String := none
  reminder_type : ReminderType
  trigger_datetime : Option DT := none
  recurrence_rule : Option String := none
  remind_frequency_minutes : Option Int := none
  relative_delay_minutes : Option Int := none
  relative_to_task_completion_id : Option Nat := none
  last_notified_at : Option DT := none
  is_active : Bool := true
  snoozed_until : Option DT := none
  owner_id : Nat
  task_id : Option Nat := none
deriving DecidableEq, Repr

/-- `models.ReminderEvent`.  The `expected_trigger_time` column is declared
`nullable=False` in `models.py`; the embedding keeps the field optional and
expresses the declared constraint as `reminder_event_row_ok` below, so that a
write of a null value is representable and checkable. -/
structure ReminderEvent where
  reminder_id : Nat
  expected_trigger_time : Option DT
  action_time : Option DT
  action_type : ReminderActionType
deriving DecidableEq, Repr

/-- The NOT NULL constraint `models.py` declares on
`ReminderEvent.expected_trigger_time`. -/
def reminder_event_row_ok (e : ReminderEvent) : Prop :=
  e.expected_trigger_time ≠ none

/-- The persistent store: every table the engine touches.  Projects and
contacts appear only through `get_project` / `get_contact` lookups inside
`update_task`, so only their `(id, owner_id)` columns are kept. -/
structure DB where
  tasks : List Task
  task_dependency : List (Nat × Nat)
  reminders : List Reminder
  reminder_events : List ReminderEvent
  projects : List (Nat × Nat)
  contacts : List (Nat × Nat)
deriving DecidableEq, Repr

/-- `db.query(Task).filter(Task.id == i).first()`. -/
def find_task (db : DB) (i : Nat) : Option Task :=
  db.tasks.find? (fun t => t.id == i)

/-- `db.query(Task).filter(Task.id == i, Task.owner_id == uid).first()`. -/
def find_task_owned (db : DB) (i uid : Nat) : Option Task :=
  db.tasks.find? (fun t => t.id == i && t.owner_id == uid)

/-- Ids of the tasks task `i` depends on (`task.dependency_tasks`). -/
def dependency_ids (db : DB) (i : Nat) : List Nat :=
  (db.task_dependency.filter (fun e => e.1 == i)).map (fun e => e.2)

/-- The status of the stored task with id `i`, if any. -/
def status_of (db : DB) (i : Nat) : Option TaskStatus :=
  (find_task db i).map Task.status

/-- Overwrite the status of every stored row with id `i`. -/
def set_task_status (db : DB) (i : Nat) (s : TaskStatus) : DB :=
  { db with tasks := db.tasks.map (fun t => if t.id == i then { t with status := s } else t) }

/-- The `uncompleted_dependencies` computation of
`crud.check_and_update_task_status`: some dependency id of task `i` is
missing from the store or resolves to a task that is not COMPLETED.  (The
source's early `break` and `List.any` agree.) -/
def uncompleted_deps (db : DB) (i : Nat) : Bool :=
  (dependency_ids db i).any (fun d =>
    match find_task db d with
    | none => true
    | some dt => dt.status != TaskStatus.completed)

/-- `crud.check_and_update_task_status`: recompute one task's
blocked/unblocked status from its dependencies.  Returns the
`was_unblocked` flag together with the updated store (the helper does not
commit; commits are value threading here). -/
def check_and_update_task_status (db : DB) (task : Task) : Bool × DB :=
  if uncompleted_deps db task.id then
    if task.status != TaskStatus.blocked then
      (false, set_task_status db task.id TaskStatus.blocked)
    else
      (false, db)
  else
    if task.status == TaskStatus.blocked then
      (true, set_task_status db task.id TaskStatus.pending)
    else
      (false, db)

/-- `crud.add_task_dependency`.  Returns the sentinel string of the source
together with the updated store. -/
def add_task_dependency (db : DB) (task_id depends_on_task_id user_id : Nat) : String × DB :=
  if task_id == depends_on_task_id then
    ("self_dependency", db)
  else
    match find_task_owned db task_id user_id, find_task_owned db depends_on_task_id user_id with
    | some task, some _ =>
        if db.task_dependency.contains (task_id, depends_on_task_id) then
          ("already_exists", db)
        else
          let db1 : DB := { db with task_dependency := db.task_dependency ++ [(task_id, depends_on_task_id)] }
          ("ok", (check_and_update_task_status db1 task).2)
    | _, _ => ("not_found", db)

/-- Outcome of a FastAPI handler, as far as the engine's contract goes. -/
inductive HttpOutcome where
  | no_content
  | error_response (status_code : Nat) (detail : String)
deriving DecidableEq, Repr

/-- `routers/tasks.py: add_task_dependency_endpoint`. -/
def add_task_dependency_endpoint (db : DB) (task_id depends_on_task_id user_id : Nat) :
    HttpOutcome × DB :=
  let res := add_task_dependency db task_id depends_on_task_id user_id
  if res.1 == "not_found" then
    (HttpOutcome.error_response 404 "One or both tasks not found or not owned by user", res.2)
  else if res.1 == "self_dependency" then
    (HttpOutcome.error_response 400 "Task cannot depend on itself", res.2)
  else if res.1 == "already_exists" then
    (HttpOutcome.no_content, res.2)
  else if res.1 != "ok" then
    (HttpOutcome.error_response 500 "Failed to add dependency", res.2)
  else
    (HttpOutcome.no_content, res.2)

/-! ### Recurrence calculator

`crud.calculate_next_trigger` and `crud.validate_recurrence_rule` delegate the
recurrence arithmetic to python-dateutil's `rrulestr` / `rrule.after`, which is
third-party code absent from the repository.  That dependency is modelled from
the spec below, for the fixed-length frequencies the minute-granularity clock
can represent. -/

/-- A Python exception, as far as the embedded code can raise one.
`valueError` is what `rrulestr` raises on a malformed rule (the only
exception `calculate_next_trigger` and `validate_recurrence_rule` catch);
`attributeError` is what `current_trigger.tzinfo` raises when
`current_trigger` is `None`. -/
inductive PyExn where
  | valueError
  | attributeError
deriving DecidableEq, Repr

/-- Accumulator for the recognised `KEY=VALUE` parameters of a rule string. -/
structure RRuleFields where
  freq : Option Int
  interval : Nat
  count : Option Nat
deriving DecidableEq, Repr

/-- Modelled from the spec: length in minutes of one recurrence period for
each fixed-length `FREQ` value of an iCalendar RRULE (python-dateutil,
§4.1 "recurrence specification string").  Variable-length or sub-minute
frequencies are outside the model and are treated as unrecognised. -/
def freq_step_minutes : String → Option Int
  | "MINUTELY" => some 1
  | "HOURLY" => some 60
  | "DAILY" => some 1440
  | "WEEKLY" => some 10080
  | _ => none

/-- Split one `KEY=VALUE` part of a rule string. -/
def parse_kv (part : String) : Option (String × String) :=
  match part.splitOn "=" with
  | [k, v] => some (k, v)
  | _ => none

/-- Modelled from the spec: fold one recognised RRULE parameter into the
accumulator; an unrecognised key or value is a syntax error (`none`). -/
def apply_rrule_param (acc : RRuleFields) (kv : String × String) : Option RRuleFields :=
  if kv.1 == "FREQ" then
    (freq_step_minutes kv.2).map (fun m => { acc with freq := some m })
  else if kv.1 == "INTERVAL" then
    kv.2.toNat?.bind (fun n => if n == 0 then none else some { acc with interval := n })
  else if kv.1 == "COUNT" then
    kv.2.toNat?.map (fun n => { acc with count := some n })
  else
    none

/-- A parsed recurrence rule: the arithmetic content `rrulestr` produces for
the modelled subset.  Occurrences are `dtstart + k * step_minutes` for
`k = 0, 1, ...`, capped by `count` when present. -/
structure RRule where
  step_minutes : Int
  count : Option Nat
  dtstart : DT
deriving DecidableEq, Repr

/-- Strip the optional leading `RRULE:` marker. -/
def rrule_body (s : String) : String :=
  if s.startsWith "RRULE:" then s.drop 6 else s

/-- Modelled from the spec: parse the body of a rule string into its step
length and occurrence cap, raising `valueError` on malformed input, exactly
as `rrulestr(...)` does.  A leading `RRULE:` marker is accepted; `FREQ` is
mandatory. -/
def rrule_parse (s : String) : Except PyExn (Int × Option Nat) :=
  match ((rrule_body s).splitOn ";").foldlM
      (fun acc part => (parse_kv part).bind (apply_rrule_param acc))
      { freq := none, interval := 1, count := none : RRuleFields } with
  | none => Except.error PyExn.valueError
  | some f =>
      match f.freq with
      | none => Except.error PyExn.valueError
      | some fm => Except.ok (fm * (f.interval : Int), f.count)

/-- Modelled from the spec: `rrulestr(rule, dtstart=dtstart, ignoretz=True)`. -/
def rrulestr_model (s : String) (dtstart : DT) : Except PyExn RRule :=
  (rrule_parse s).map (fun p => { step_minutes := p.1, count := p.2, dtstart := dtstart })

/-- The `k`-th occurrence of a parsed rule. -/
def rule_occurrence (r : RRule) (k : Nat) : DT :=
  r.dtstart + (k : Int) * r.step_minutes

/-- `x` is an occurrence of the rule (respecting the `COUNT` cap). -/
def is_occurrence (r : RRule) (x : DT) : Prop :=
  ∃ k : Nat, (∀ c, r.count = some c → k < c) ∧ x = rule_occurrence r k

/-- Index of the first occurrence strictly after `t` (for a positive step). -/
def rule_k0 (r : RRule) (t : DT) : Int :=
  if t < r.dtstart then 0 else (t - r.dtstart) / r.step_minutes + 1

/-- Modelled from the spec: `rule.after(t)` — the first occurrence strictly
after `t`, or `None` when the rule is exhausted. -/
def rule_after (r : RRule) (t : DT) : Option DT :=
  if r.step_minutes ≤ 0 then none
  else
    match r.count with
    | some c =>
        if rule_k0 r t < (c : Int) then some (r.dtstart + rule_k0 r t * r.step_minutes)
        else none
    | none => some (r.dtstart + rule_k0 r t * r.step_minutes)

/-- `crud.validate_recurrence_rule`.  A `None` or empty rule is invalid; a
`ValueError` from `rrulestr` is caught and reported as `false`. -/
def validate_recurrence_rule (rule_string : Option String) : Bool :=
  match rule_string with
  | none => false
  | some s =>
      if s == "" then false
      else
        match rrule_parse s with
        | Except.ok _ => true
        | Except.error PyExn.valueError => false
        | Except.error _ => false

/-- `crud.calculate_next_trigger`.  A falsy (`None` or empty) rule string
returns `None` up front; a `None` current trigger raises `AttributeError`
at `current_trigger.tzinfo`, which the `except ValueError` handler does not
catch; a `ValueError` from `rrulestr` is caught and becomes `None`. -/
def calculate_next_trigger (rule_string : Option String) (current_trigger : Option DT) :
    Except PyExn (Option DT) :=
  match rule_string with
  | none => Except.ok none
  | some s =>
      if s == "" then Except.ok none
      else
        match current_trigger with
        | none => Except.error PyExn.attributeError
        | some t =>
            match rrulestr_model s t with
            | Except.error PyExn.valueError => Except.ok none
            | Except.error e => Except.error e
            | Except.ok rule => Except.ok (rule_after rule t)

/-! ### Reminder lifecycle: complete / skip -/

/-- Result of `crud.complete_reminder_instance` / `crud.skip_reminder_instance`
(the source signals `"not_found"` / `"inactive"` with sentinel strings and
otherwise returns the refreshed reminder). -/
inductive ReminderActionResult where
  | not_found
  | inactive
  | ok (reminder : Reminder)
deriving DecidableEq, Repr

/-- `db.query(Reminder).filter(Reminder.id == i, Reminder.owner_id == uid).first()`. -/
def find_reminder_owned (db : DB) (i uid : Nat) : Option Reminder :=
  db.reminders.find? (fun r => r.id == i && r.owner_id == uid)

/-- The body `complete_reminder_instance` / `skip_reminder_instance` run on
the reminder they found: log the event against the current
`trigger_datetime`, then advance (RECURRING_SCHEDULED) or deactivate. -/
def reminder_action_found (action : ReminderActionType) (db : DB)
    (reminder_id : Nat) (now : DT) (r : Reminder) :
    Except PyExn (ReminderActionResult × DB) :=
  if !r.is_active then Except.ok (ReminderActionResult.inactive, db)
  else
    let event : ReminderEvent :=
      { reminder_id := reminder_id
        expected_trigger_time := r.trigger_datetime
        action_time := some now
        action_type := action }
    let advanced : Except PyExn Reminder :=
      if r.reminder_type == ReminderType.recurring_scheduled then
        (calculate_next_trigger r.recurrence_rule r.trigger_datetime).map (fun nt =>
          match nt with
          | some n => { r with trigger_datetime := some n }
          | none => { r with is_active := false })
      else
        Except.ok { r with is_active := false }
    advanced.map (fun r1 =>
      (ReminderActionResult.ok r1,
       { db with
          reminders := db.reminders.map (fun x => if x.id == r.id then r1 else x)
          reminder_events := db.reminder_events ++ [event] }))

/-- Shared body of `complete_reminder_instance` and `skip_reminder_instance`;
the two functions differ only in the `action_type` they log. -/
def reminder_action_instance (action : ReminderActionType) (db : DB)
    (reminder_id user_id : Nat) (now : DT) : Except PyExn (ReminderActionResult × DB) :=
  match find_reminder_owned db reminder_id user_id with
  | none => Except.ok (ReminderActionResult.not_found, db)
  | some r => reminder_action_found action db reminder_id now r

/-- `crud.complete_reminder_instance`. -/
def complete_reminder_instance (db : DB) (reminder_id user_id : Nat) (now : DT) :
    Except PyExn (ReminderActionResult × DB) :=
  reminder_action_instance ReminderActionType.completed db reminder_id user_id now

/-- `crud.skip_reminder_instance`. -/
def skip_reminder_instance (db : DB) (reminder_id user_id : Nat) (now : DT) :
    Except PyExn (ReminderActionResult × DB) :=
  reminder_action_instance ReminderActionType.skipped db reminder_id user_id now

/-! ### Task update with completion cascade -/

/-- `schemas.TaskUpdate` under `model_dump(exclude_unset=True)`: the outer
`Option` is field presence in the payload, the inner one (for nullable
columns) is the value written. -/
structure TaskUpdate where
  title : Option String := none
  description : Option (Option String) := none
  due_date : Option (Option DT) := none
  project_id : Option (Option Nat) := none
  status : Option TaskStatus := none
  contact_id : Option (Option Nat) := none
deriving DecidableEq, Repr

/-- Result of `crud.update_task`: `None`, a sentinel string, or the dict of
updated task and newly unblocked dependents. -/
inductive UpdateTaskResult where
  | not_found
  | invalid_project
  | invalid_contact
  | ok (updated_task : Task) (unblocked_tasks : List Task)
deriving DecidableEq, Repr

/-- The `'project_id' in update_data and ... is not None` validation of
`update_task`: `get_project` looks the project up by id alone and the owner
is compared afterwards. -/
def invalid_project_update (db : DB) (tu : TaskUpdate) (user_id : Nat) : Bool :=
  match tu.project_id with
  | some (some pid) =>
      match db.projects.find? (fun p => p.1 == pid) with
      | none => true
      | some p => p.2 != user_id
  | _ => false

/-- The contact validation of `update_task`: `get_contact` filters by id and
owner together. -/
def invalid_contact_update (db : DB) (tu : TaskUpdate) (user_id : Nat) : Bool :=
  match tu.contact_id with
  | some (some cid) =>
      (db.contacts.find? (fun c => c.1 == cid && c.2 == user_id)).isNone
  | _ => false

/-- Replace every stored row with the id of `t` by `t` (the commit of the
primary task update). -/
def replace_task (db : DB) (t : Task) : DB :=
  { db with tasks := db.tasks.map (fun x => if x.id == t.id then t else x) }

/-- The per-reminder mutation `update_task` performs on each active
RECURRING_RELATIVE reminder anchored to the completed task. -/
def retrigger_relative (task_id : Nat) (completed_time : DT) (r : Reminder) : Reminder :=
  if r.relative_to_task_completion_id == some task_id
      && r.reminder_type == ReminderType.recurring_relative
      && r.is_active then
    { r with
        trigger_datetime := some (completed_time + r.relative_delay_minutes.getD 0)
        last_notified_at := none }
  else r

/-- One iteration of the dependent-status loop in `update_task`: run
`check_and_update_task_status` on the live row for dependent `d` and record
it when it was newly unblocked. -/
def cascade_step (acc : List Task × DB) (d : Task) : List Task × DB :=
  match find_task acc.2 d.id with
  | none => acc
  | some live =>
      let res := check_and_update_task_status acc.2 live
      (if res.1 then acc.1 ++ [{ live with status := TaskStatus.pending }] else acc.1, res.2)

/-- The `'status' in update_data` completion test of `update_task`: the
update sets status to COMPLETED and the task was not already COMPLETED. -/
def task_completion_requested (tu : TaskUpdate) (original_status : TaskStatus) : Bool :=
  match tu.status with
  | some ns => ns == TaskStatus.completed && original_status != TaskStatus.completed
  | none => false

/-- Application of the `update_data` dictionary to the task row, including
the `completed_at` bookkeeping of `update_task`. -/
def apply_task_update (tu : TaskUpdate) (now : DT) (task_was_completed : Bool)
    (db_task : Task) : Task :=
  { db_task with
      title := tu.title.getD db_task.title
      description := tu.description.getD db_task.description
      due_date := tu.due_date.getD db_task.due_date
      project_id := tu.project_id.getD db_task.project_id
      status := tu.status.getD db_task.status
      contact_id := tu.contact_id.getD db_task.contact_id
      completed_at :=
        if task_was_completed then some now
        else
          match tu.status with
          | some ns =>
              if ns != TaskStatus.completed && db_task.status == TaskStatus.completed then none
              else db_task.completed_at
          | none => db_task.completed_at }

/-- The commit-and-cascade phase of `update_task`, after validation: apply
the update, reschedule relative reminders and recompute dependent statuses
when the task just completed, and report the refreshed rows. -/
def update_task_apply (db : DB) (task_id : Nat) (tu : TaskUpdate) (now : DT)
    (db_task : Task) (task_was_completed : Bool) : UpdateTaskResult × DB :=
  let t1 := apply_task_update tu now task_was_completed db_task
  let db1 := replace_task db t1
  let db2 :=
    if task_was_completed then
      { db1 with reminders := db1.reminders.map (retrigger_relative task_id now) }
    else db1
  let cascaded :=
    if task_was_completed then
      (db2.tasks.filter (fun t => db2.task_dependency.contains (t.id, task_id))).foldl
        cascade_step ([], db2)
    else ([], db2)
  let db3 := cascaded.2
  let unblocked := cascaded.1.map (fun t => (find_task db3 t.id).getD t)
  ((UpdateTaskResult.ok ((find_task db3 task_id).getD t1) unblocked), db3)

/-- Body of `update_task` once the task row is found. -/
def update_task_found (db : DB) (task_id : Nat) (tu : TaskUpdate) (user_id : Nat)
    (now : DT) (db_task : Task) : UpdateTaskResult × DB :=
  if invalid_project_update db tu user_id then (UpdateTaskResult.invalid_project, db)
  else if invalid_contact_update db tu user_id then (UpdateTaskResult.invalid_contact, db)
  else update_task_apply db task_id tu now db_task (task_completion_requested tu db_task.status)

/-- `crud.update_task`.  `now` is `datetime.now(timezone.utc)` at the moment
the status flips to completed. -/
def update_task (db : DB) (task_id : Nat) (tu : TaskUpdate) (user_id : Nat) (now : DT) :
    UpdateTaskResult × DB :=
  match find_task_owned db task_id user_id with
  | none => (UpdateTaskResult.not_found, db)
  | some db_task => update_task_found db task_id tu user_id now db_task

/-! ### Due-reminder scheduler (`main.check_due_reminders_job`) -/

/-- Step 1 of the job: the query for candidate reminders. -/
def due_query (db : DB) (now : DT) : List Reminder :=
  db.reminders.filter (fun r =>
    r.is_active
      && (match r.trigger_datetime with
          | some t => decide (t ≤ now)
          | none => false)
      && (match r.snoozed_until with
          | none => true
          | some s => decide (s ≤ now)))

/-- "Newly due": never notified, or last notified before the current trigger.
(The `none` trigger branch is unreachable for reminders produced by
`due_query`, whose filter demands a set trigger.) -/
def newly_due (r : Reminder) : Bool :=
  match r.last_notified_at with
  | none => true
  | some ln =>
      match r.trigger_datetime with
      | some t => decide (ln < t)
      | none => false

/-- "Persistent re-notify due": a re-notification frequency is configured and
has elapsed since the last notification. -/
def persistent_due (now : DT) (r : Reminder) : Bool :=
  match r.remind_frequency_minutes, r.last_notified_at with
  | some f, some ln => decide (ln + f ≤ now)
  | _, _ => false

/-- The body of the job's second loop: append a persistent re-notify
candidate unless it is already listed. -/
def add_persistent (now : DT) (acc : List Reminder) (r : Reminder) : List Reminder :=
  if persistent_due now r && !acc.contains r then acc ++ [r] else acc

/-- The full selection of the job: newly due reminders in query order,
then persistent re-notify candidates not already present. -/
def reminders_to_notify (db : DB) (now : DT) : List Reminder :=
  let checked := due_query db now
  checked.foldl (add_persistent now) (checked.filter newly_due)

/-- The TRIGGERED event the job logs for one notified reminder. -/
def triggered_event (r : Reminder) (now : DT) : ReminderEvent :=
  { reminder_id := r.id
    expected_trigger_time := r.trigger_datetime
    action_time := some now
    action_type := ReminderActionType.triggered }

/-- Processing of one selected reminder: attempt the push dispatch (its
boolean outcome is only logged), log the TRIGGERED event, stamp
`last_notified_at`. -/
def notify_step (now : DT) (dispatch : Reminder → Bool) (db : DB) (r : Reminder) : DB :=
  let _sent := dispatch r
  { db with
      reminder_events := db.reminder_events ++ [triggered_event r now]
      reminders := db.reminders.map (fun x =>
        if x.id == r.id then { x with last_notified_at := some now } else x) }

/-- `main.check_due_reminders_job`, with the wall clock and the external
dispatcher (`push_utils.send_apns_notification` plus the owner/device-token
guard) passed in explicitly. -/
def check_due_reminders_job (db : DB) (now : DT) (dispatch : Reminder → Bool) : DB :=
  let lst := reminders_to_notify db now
  if lst.isEmpty then db
  else lst.foldl (notify_step now dispatch) db

/-! ## Shared helper lemmas -/

/-- `find?` commutes with a map that does not change the searched field. -/
theorem find?_map_pres {α : Type} (f : α → α) (p : α → Bool)
    (hp : ∀ x, p (f x) = p x) :
    ∀ l : List α, (l.map f).find? p = (l.find? p).map f := by
  intro l
  induction l with
  | nil => rfl
  | cons a l ih =>
      simp only [List.map_cons, List.find?_cons, hp]
      cases h : p a
      · simpa using ih
      · simp

/-- Looking a task up after a status overwrite. -/
theorem find_task_set_status (db : DB) (i : Nat) (s : TaskStatus) (j : Nat) :
    find_task (set_task_status db i s) j =
      (find_task db j).map (fun t => if t.id == i then { t with status := s } else t) := by
  unfold find_task set_task_status
  exact find?_map_pres _ _ (fun t => by by_cases h : t.id == i <;> simp [h]) _

/-- A found task carries the id it was searched by. -/
theorem find_task_id {db : DB} {i : Nat} {t : Task} (h : find_task db i = some t) :
    t.id = i := by
  have := List.find?_some h
  simpa using this

/-! ## C1: completion of a three-task chain -/

/-- Chain fixture: task 2 depends on task 1, task 3 depends on task 2;
tasks 2 and 3 are blocked, task 1 is pending, all owned by user 1. -/
def chainA : Task := { id := 1, title := "A", status := TaskStatus.pending, owner_id := 1 }

def chainB : Task := { id := 2, title := "B", status := TaskStatus.blocked, owner_id := 1 }

def chainC : Task := { id := 3, title := "C", status := TaskStatus.blocked, owner_id := 1 }

def chainDB : DB :=
  { tasks := [chainA, chainB, chainC]
    task_dependency := [(2, 1), (3, 2)]
    reminders := []
    reminder_events := []
    projects := []
    contacts := [] }

/-- The payload that marks a task completed. -/
def completeUpdate : TaskUpdate := { status := some TaskStatus.completed }

/-- Ids of the newly unblocked tasks reported by `update_task`. -/
def unblocked_ids : UpdateTaskResult → List Nat
  | UpdateTaskResult.ok _ l => l.map (fun t => t.id)
  | _ => []

/-- C1 counterexample: in the three-task chain, completing task 1 via
`update_task` reports only task 2 as newly released; task 3 is not in the
returned list (and is still blocked afterwards), contradicting the claim
that both B and C are reported. -/
theorem update_task_chain_counterexample :
    unblocked_ids (update_task chainDB 1 completeUpdate 1 0).1 = [2] ∧
    3 ∉ unblocked_ids (update_task chainDB 1 completeUpdate 1 0).1 ∧
    status_of (update_task chainDB 1 completeUpdate 1 0).2 3 = some TaskStatus.blocked := by
  decide

/-- C1 (amended): in the three-task chain, a single completion of A via
`update_task` reports exactly B (task 2) as newly released; C (task 3)
stays blocked, because its dependency B is now pending, not completed. -/
theorem update_task_chain_releases_direct_only (now : DT) :
    unblocked_ids (update_task chainDB 1 completeUpdate 1 now).1 = [2] ∧
    status_of (update_task chainDB 1 completeUpdate 1 now).2 1 = some TaskStatus.completed ∧
    status_of (update_task chainDB 1 completeUpdate 1 now).2 2 = some TaskStatus.pending ∧
    status_of (update_task chainDB 1 completeUpdate 1 now).2 3 = some TaskStatus.blocked := by
  exact ⟨rfl, rfl, rfl, rfl⟩

/-! ## C5: adding an existing dependency edge is an idempotent success -/

/-- C5: when both endpoints exist and belong to the caller and the edge is
already present, `add_task_dependency` reports `"already_exists"` without
touching the store, and the endpoint turns that into a 204 success. -/
theorem add_task_dependency_idempotent (db : DB) (a b uid : Nat) (t1 t2 : Task)
    (hne : a ≠ b)
    (h1 : find_task_owned db a uid = some t1)
    (h2 : find_task_owned db b uid = some t2)
    (hedge : (a, b) ∈ db.task_dependency) :
    add_task_dependency db a b uid = ("already_exists", db) ∧
    add_task_dependency_endpoint db a b uid = (HttpOutcome.no_content, db) := by
  have hab : (a == b) = false := by simpa using hne
  have hmain : add_task_dependency db a b uid = ("already_exists", db) := by
    unfold add_task_dependency
    rw [hab, h1, h2]
    simp [hedge]
  refine ⟨hmain, ?_⟩
  unfold add_task_dependency_endpoint
  rw [hmain]
  rfl

/-- C5 witness: a concrete two-task store with the edge already present. -/
theorem add_task_dependency_idempotent_witness :
    add_task_dependency
        { tasks := [{ id := 1, title := "x", status := TaskStatus.blocked, owner_id := 4 },
                    { id := 2, title := "y", status := TaskStatus.pending, owner_id := 4 }]
          task_dependency := [(1, 2)]
          reminders := [], reminder_events := [], projects := [], contacts := [] }
        1 2 4 =
      ("already_exists",
        { tasks := [{ id := 1, title := "x", status := TaskStatus.blocked, owner_id := 4 },
                    { id := 2, title := "y", status := TaskStatus.pending, owner_id := 4 }]
          task_dependency := [(1, 2)]
          reminders := [], reminder_events := [], projects := [], contacts := [] }) ∧
    add_task_dependency_endpoint
        { tasks := [{ id := 1, title := "x", status := TaskStatus.blocked, owner_id := 4 },
                    { id := 2, title := "y", status := TaskStatus.pending, owner_id := 4 }]
          task_dependency := [(1, 2)]
          reminders := [], reminder_events := [], projects := [], contacts := [] }
        1 2 4 =
      (HttpOutcome.no_content,
        { tasks := [{ id := 1, title := "x", status := TaskStatus.blocked, owner_id := 4 },
                    { id := 2, title := "y", status := TaskStatus.pending, owner_id := 4 }]
          task_dependency := [(1, 2)]
          reminders := [], reminder_events := [], projects := [], contacts := [] }) :=
  add_task_dependency_idempotent _ 1 2 4
    { id := 1, title := "x", status := TaskStatus.blocked, owner_id := 4 }
    { id := 2, title := "y", status := TaskStatus.pending, owner_id := 4 }
    (by decide) (by decide) (by decide) (by decide)

/-! ## C10: events logged against a never-triggered relative reminder -/

/-- Fixture: an active RECURRING_RELATIVE reminder whose reference task has
not completed yet, so `trigger_datetime` is still null. -/
def pendingRelativeReminder : Reminder :=
  { id := 8
    reminder_type := ReminderType.recurring_relative
    trigger_datetime := none
    relative_delay_minutes := some 60
    relative_to_task_completion_id := some 1
    owner_id := 1 }

def pendingRelativeDB : DB :=
  { tasks := [], task_dependency := []
    reminders := [pendingRelativeReminder]
    reminder_events := [], projects := [], contacts := [] }

/-- C10: completing an active RECURRING_RELATIVE reminder whose
`trigger_datetime` is still null stores a ReminderEvent whose
`expected_trigger_time` is null, violating the NOT NULL constraint the data
model declares on that column. -/
theorem reminder_event_null_expected_trigger_bug :
    ∃ res db1, complete_reminder_instance pendingRelativeDB 8 1 100 = Except.ok (res, db1) ∧
      ∃ e ∈ db1.reminder_events, ¬ reminder_event_row_ok e := by
  refine ⟨_, _, rfl,
    ⟨(⟨8, none, some 100, ReminderActionType.completed⟩ : ReminderEvent), ?_, ?_⟩⟩
  · decide
  · intro h
    exact h rfl

/-! ## C3: the recurrence calculator never raises and returns the first
occurrence strictly after the anchor -/

/-- Every recognised frequency has a positive period. -/
theorem freq_step_minutes_pos {s : String} {m : Int}
    (h : freq_step_minutes s = some m) : 0 < m := by
  unfold freq_step_minutes at h
  split at h <;> simp_all <;> omega

/-- Invariant of the parameter fold: a recognised frequency is positive and
the interval is positive. -/
def rrule_fields_ok (f : RRuleFields) : Prop :=
  (∀ m, f.freq = some m → 0 < m) ∧ 0 < f.interval

theorem apply_rrule_param_ok {f f' : RRuleFields} {kv : String × String}
    (hf : rrule_fields_ok f) (h : apply_rrule_param f kv = some f') :
    rrule_fields_ok f' := by
  unfold apply_rrule_param at h
  split_ifs at h with h1 h2 h3
  · obtain ⟨m, hm, rfl⟩ := Option.map_eq_some'.mp h
    exact ⟨fun m' hm' => by simp at hm'; exact hm' ▸ freq_step_minutes_pos hm, hf.2⟩
  · obtain ⟨n, _, hn⟩ := Option.bind_eq_some.mp h
    by_cases hz : (n == 0) = true
    · rw [if_pos hz] at hn; cases hn
    · rw [if_neg hz] at hn
      cases hn
      exact ⟨hf.1, Nat.pos_of_ne_zero (by simpa using hz)⟩
  · obtain ⟨n, _, hn⟩ := Option.map_eq_some'.mp h
    cases hn
    exact ⟨hf.1, hf.2⟩

theorem foldlM_rrule_ok :
    ∀ (l : List String) (f : RRuleFields), rrule_fields_ok f →
      ∀ f', l.foldlM (fun acc part => (parse_kv part).bind (apply_rrule_param acc)) f
          = some f' → rrule_fields_ok f' := by
  intro l
  induction l with
  | nil =>
      intro f hf f' h
      simp only [List.foldlM_nil, Option.pure_def, Option.some.injEq] at h
      exact h ▸ hf
  | cons a l ih =>
      intro f hf f' h
      rw [List.foldlM_cons] at h
      obtain ⟨f1, h1, h2⟩ := Option.bind_eq_some.mp h
      obtain ⟨kv, _, happ⟩ := Option.bind_eq_some.mp h1
      exact ih f1 (apply_rrule_param_ok hf happ) f' h2

/-- A successfully parsed rule has a positive step. -/
theorem rrule_parse_pos {s : String} {step : Int} {count : Option Nat}
    (h : rrule_parse s = Except.ok (step, count)) : 0 < step := by
  unfold rrule_parse at h
  split at h
  · cases h
  · rename_i f hfold
    split at h
    · cases h
    · rename_i fm hfreq
      cases h
      have hok : rrule_fields_ok f :=
        foldlM_rrule_ok _ _ ⟨fun m hm => (by cases hm), (by decide)⟩ _ hfold
      have h1 : 0 < fm := hok.1 fm hfreq
      have h2 : 0 < (f.interval : Int) := by exact_mod_cast hok.2
      positivity

/-- The parser only ever raises `ValueError`. -/
theorem rrule_parse_error {s : String} {e : PyExn}
    (h : rrule_parse s = Except.error e) : e = PyExn.valueError := by
  unfold rrule_parse at h
  split at h
  · cases h; rfl
  · split at h
    · cases h; rfl
    · cases h

/-- Shape of a successfully built rule object. -/
theorem rrulestr_model_ok {s : String} {t : DT} {r : RRule}
    (h : rrulestr_model s t = Except.ok r) :
    r.dtstart = t ∧ 0 < r.step_minutes := by
  unfold rrulestr_model at h
  cases hp : rrule_parse s with
  | error e => rw [hp] at h; cases h
  | ok p =>
      rw [hp] at h
      cases h
      exact ⟨rfl, rrule_parse_pos (by rw [hp])⟩

theorem rrulestr_model_error {s : String} {t : DT} {e : PyExn}
    (h : rrulestr_model s t = Except.error e) : e = PyExn.valueError := by
  unfold rrulestr_model at h
  cases hp : rrule_parse s with
  | error e' =>
      rw [hp] at h
      cases h
      exact rrule_parse_error hp
  | ok p => rw [hp] at h; cases h

/-- When the anchor is the rule's own start, the index of the first later
occurrence is 1. -/
theorem rule_k0_self (r : RRule) (t : DT) (h : r.dtstart = t) : rule_k0 r t = 1 := by
  unfold rule_k0
  rw [h]
  simp

/-- Unfolding of `calculate_next_trigger` on present arguments. -/
theorem calculate_next_trigger_some_some (s : String) (t : DT) :
    calculate_next_trigger (some s) (some t) =
      (if (s == "") = true then Except.ok none
       else
        match rrulestr_model s t with
        | Except.error PyExn.valueError => Except.ok none
        | Except.error e => Except.error e
        | Except.ok r => Except.ok (rule_after r t)) := rfl

/-- Unfolding of `validate_recurrence_rule` on a present rule string. -/
theorem validate_recurrence_rule_some (s : String) :
    validate_recurrence_rule (some s) =
      (if (s == "") = true then false
       else
        match rrule_parse s with
        | Except.ok _ => true
        | Except.error PyExn.valueError => false
        | Except.error _ => false) := rfl

/-- C3: for every rule string and anchor instant, `calculate_next_trigger`
returns normally (no exception escapes, malformed input included); a `some`
result is an occurrence of the parsed rule, strictly after the anchor, and
minimal among such occurrences; a `none` result means the rule string was
empty, malformed, or exhausted (no occurrence after the anchor).
`validate_recurrence_rule` likewise reports a malformed rule as `false`
rather than raising. -/
theorem calculate_next_trigger_spec (rule : String) (t : DT) :
    ∃ o : Option DT,
      calculate_next_trigger (some rule) (some t) = Except.ok o ∧
      (∀ n, o = some n → ∃ r, rrulestr_model rule t = Except.ok r ∧
          is_occurrence r n ∧ t < n ∧ ∀ m, is_occurrence r m → t < m → n ≤ m) ∧
      (o = none → rule = "" ∨ rrulestr_model rule t = Except.error PyExn.valueError ∨
          ∃ r, rrulestr_model rule t = Except.ok r ∧ ∀ m, is_occurrence r m → ¬ t < m) ∧
      (rrulestr_model rule t = Except.error PyExn.valueError →
          validate_recurrence_rule (some rule) = false) := by
  have hval : rrulestr_model rule t = Except.error PyExn.valueError →
      validate_recurrence_rule (some rule) = false := by
    intro hm
    have hp : rrule_parse rule = Except.error PyExn.valueError := by
      unfold rrulestr_model at hm
      cases hp : rrule_parse rule with
      | error e' =>
          rw [hp] at hm
          cases hm
          exact rfl
      | ok p => rw [hp] at hm; cases hm
    rw [validate_recurrence_rule_some]
    by_cases hemp' : (rule == "") = true
    · rw [if_pos hemp']
    · rw [if_neg hemp', hp]
  by_cases hemp : (rule == "") = true
  · refine ⟨none, ?_, ?_, ?_, hval⟩
    · rw [calculate_next_trigger_some_some, if_pos hemp]
    · intro n hn; cases hn
    · intro _; exact Or.inl (by simpa using hemp)
  · cases hm : rrulestr_model rule t with
    | error e =>
        have he : e = PyExn.valueError := rrulestr_model_error hm
        subst he
        refine ⟨none, ?_, ?_, ?_, fun _ => hval hm⟩
        · rw [calculate_next_trigger_some_some, if_neg hemp, hm]
        · intro n hn; cases hn
        · intro _; exact Or.inr (Or.inl rfl)
    | ok r =>
        obtain ⟨hstart, hstep⟩ := rrulestr_model_ok hm
        have hres : calculate_next_trigger (some rule) (some t) =
            Except.ok (rule_after r t) := by
          rw [calculate_next_trigger_some_some, if_neg hemp, hm]
        have hk0 : rule_k0 r t = 1 := rule_k0_self r t hstart
        have hone_lt : t < t + r.step_minutes := lt_add_of_pos_right t hstep
        have hocc1 : rule_occurrence r 1 = t + r.step_minutes := by
          unfold rule_occurrence
          rw [hstart]
          push_cast
          ring
        have hocc_min : ∀ m, is_occurrence r m → t < m → t + r.step_minutes ≤ m := by
          rintro m ⟨k, _, rfl⟩ hlt
          unfold rule_occurrence at hlt ⊢
          rw [hstart] at hlt ⊢
          rcases Nat.eq_zero_or_pos k with hk | hk
          · subst hk; simp at hlt
          · have h1 : (1 : Int) ≤ (k : Int) := by exact_mod_cast hk
            nlinarith
        cases hc : r.count with
        | none =>
            have hra : rule_after r t = some (t + r.step_minutes) := by
              unfold rule_after
              rw [if_neg (by omega), hc, hk0]
              show some (r.dtstart + 1 * r.step_minutes) = some (t + r.step_minutes)
              rw [hstart, one_mul]
            refine ⟨some (t + r.step_minutes), by rw [hres, hra], ?_, ?_, fun h => nomatch h⟩
            · intro n hn
              cases hn
              refine ⟨r, rfl, ⟨1, by simp [hc], hocc1.symm⟩, hone_lt, hocc_min⟩
            · intro hn; cases hn
        | some c =>
            by_cases hc1 : (1 : Int) < (c : Int)
            · have hra : rule_after r t = some (t + r.step_minutes) := by
                unfold rule_after
                rw [if_neg (by omega), hc, hk0]
                show (if (1 : Int) < (c : Int) then some (r.dtstart + 1 * r.step_minutes)
                  else none) = some (t + r.step_minutes)
                rw [if_pos hc1, hstart, one_mul]
              refine ⟨some (t + r.step_minutes), by rw [hres, hra], ?_, ?_, fun h => nomatch h⟩
              · intro n hn
                cases hn
                refine ⟨r, rfl, ⟨1, ?_, hocc1.symm⟩, hone_lt, hocc_min⟩
                intro c' hc'
                rw [hc] at hc'
                cases hc'
                exact_mod_cast hc1
              · intro hn; cases hn
            · have hra : rule_after r t = none := by
                unfold rule_after
                rw [if_neg (by omega), hc, hk0]
                show (if (1 : Int) < (c : Int) then some (r.dtstart + 1 * r.step_minutes)
                  else none) = (none : Option DT)
                rw [if_neg hc1]
              refine ⟨none, by rw [hres, hra], ?_, ?_, fun h => nomatch h⟩
              · intro n hn; cases hn
              · intro _
                refine Or.inr (Or.inr ⟨r, rfl, ?_⟩)
                rintro m ⟨k, hkc, rfl⟩ hlt
                have hkc' := hkc c hc
                have hk0' : k = 0 := by omega
                subst hk0'
                unfold rule_occurrence at hlt
                rw [hstart] at hlt
                simp at hlt

/-! ## C4: completing a reminder instance -/

/-- `calculate_next_trigger` never raises when handed an actual datetime:
the only exception the modelled parser produces is the `ValueError` the
handler catches. -/
theorem calculate_next_trigger_ok (rs : Option String) (t : DT) :
    ∃ o, calculate_next_trigger rs (some t) = Except.ok o := by
  cases rs with
  | none => exact ⟨none, rfl⟩
  | some s =>
      by_cases hemp : (s == "") = true
      · exact ⟨none, by rw [calculate_next_trigger_some_some, if_pos hemp]⟩
      · cases hm : rrulestr_model s t with
        | error e =>
            have he := rrulestr_model_error hm
            subst he
            exact ⟨none, by rw [calculate_next_trigger_some_some, if_neg hemp, hm]⟩
        | ok r =>
            exact ⟨rule_after r t, by rw [calculate_next_trigger_some_some, if_neg hemp, hm]⟩

/-- C4: for every active reminder owned by the caller (with a set trigger
when it is RECURRING_SCHEDULED, per the §3 data invariant),
`complete_reminder_instance` logs a COMPLETED event stamped with the
current `trigger_datetime`; a RECURRING_SCHEDULED reminder advances to the
next occurrence and stays active when one exists and is deactivated when
the rule is exhausted; any other kind is always deactivated. -/
theorem complete_reminder_instance_spec (db : DB) (rid uid : Nat) (now : DT) (r : Reminder)
    (hfind : find_reminder_owned db rid uid = some r)
    (hact : r.is_active = true)
    (htrig : r.reminder_type = ReminderType.recurring_scheduled →
      r.trigger_datetime ≠ none) :
    ∃ r1 db1,
      complete_reminder_instance db rid uid now =
        Except.ok (ReminderActionResult.ok r1, db1) ∧
      db1.reminder_events = db.reminder_events ++
        [{ reminder_id := rid, expected_trigger_time := r.trigger_datetime,
           action_time := some now, action_type := ReminderActionType.completed }] ∧
      (r.reminder_type = ReminderType.recurring_scheduled →
        ∃ o, calculate_next_trigger r.recurrence_rule r.trigger_datetime = Except.ok o ∧
          ((∃ n, o = some n ∧ r1.trigger_datetime = some n ∧ r1.is_active = true) ∨
           (o = none ∧ r1.is_active = false))) ∧
      (r.reminder_type ≠ ReminderType.recurring_scheduled → r1.is_active = false) := by
  have hstep : complete_reminder_instance db rid uid now =
      reminder_action_found ReminderActionType.completed db rid now r := by
    unfold complete_reminder_instance reminder_action_instance
    rw [hfind]
  rw [hstep]
  unfold reminder_action_found
  rw [hact]
  by_cases hty : r.reminder_type = ReminderType.recurring_scheduled
  · obtain ⟨t0, ht0⟩ := Option.ne_none_iff_exists'.mp (htrig hty)
    obtain ⟨o, ho⟩ := calculate_next_trigger_ok r.recurrence_rule t0
    have ho' : calculate_next_trigger r.recurrence_rule r.trigger_datetime = Except.ok o := by
      rw [ht0]; exact ho
    have hbeq : (r.reminder_type == ReminderType.recurring_scheduled) = true := by
      rw [hty]; rfl
    rw [hbeq, ho']
    cases o with
    | some n =>
        refine ⟨_, _, rfl, rfl, ?_, ?_⟩
        · intro _
          exact ⟨some n, rfl, Or.inl ⟨n, rfl, rfl, rfl⟩⟩
        · intro h; exact absurd hty h
    | none =>
        refine ⟨_, _, rfl, rfl, ?_, ?_⟩
        · intro _
          exact ⟨none, rfl, Or.inr ⟨rfl, rfl⟩⟩
        · intro h; exact absurd hty h
  · have hbeq : (r.reminder_type == ReminderType.recurring_scheduled) = false := by
      cases hr : r.reminder_type <;> simp_all
    rw [hbeq]
    refine ⟨_, _, rfl, rfl, ?_, fun _ => rfl⟩
    intro h; exact absurd h hty

/-- C4 witness: a weekly RECURRING_SCHEDULED reminder completed at minute 5
advances by one week (10080 minutes) and stays active. -/
def weeklyReminder : Reminder :=
  { id := 7
    reminder_type := ReminderType.recurring_scheduled
    trigger_datetime := some 0
    recurrence_rule := some "FREQ=WEEKLY"
    owner_id := 1 }

def weeklyDB : DB :=
  { tasks := [], task_dependency := []
    reminders := [weeklyReminder]
    reminder_events := [], projects := [], contacts := [] }

theorem complete_reminder_instance_spec_witness :
    ∃ r1 db1,
      complete_reminder_instance weeklyDB 7 1 5 =
        Except.ok (ReminderActionResult.ok r1, db1) ∧
      db1.reminder_events = weeklyDB.reminder_events ++
        [{ reminder_id := 7, expected_trigger_time := weeklyReminder.trigger_datetime,
           action_time := some 5, action_type := ReminderActionType.completed }] ∧
      (weeklyReminder.reminder_type = ReminderType.recurring_scheduled →
        ∃ o, calculate_next_trigger weeklyReminder.recurrence_rule
            weeklyReminder.trigger_datetime = Except.ok o ∧
          ((∃ n, o = some n ∧ r1.trigger_datetime = some n ∧ r1.is_active = true) ∨
           (o = none ∧ r1.is_active = false))) ∧
      (weeklyReminder.reminder_type ≠ ReminderType.recurring_scheduled →
        r1.is_active = false) :=
  complete_reminder_instance_spec weeklyDB 7 1 5 weeklyReminder
    (by decide) (by decide) (by decide)

/-! ## C2 and C9: status recomputation -/

/-- Logical reading of "has an uncompleted dependency": some outgoing edge
leads to an id that is missing from the store or whose task is not
COMPLETED. -/
def has_uncompleted_dependency (db : DB) (i : Nat) : Prop :=
  ∃ d, (i, d) ∈ db.task_dependency ∧
    ∀ dt, find_task db d = some dt → dt.status ≠ TaskStatus.completed

/-- The boolean scan of `check_and_update_task_status` computes exactly
`has_uncompleted_dependency`. -/
theorem uncompleted_deps_iff (db : DB) (i : Nat) :
    uncompleted_deps db i = true ↔ has_uncompleted_dependency db i := by
  unfold uncompleted_deps has_uncompleted_dependency dependency_ids
  rw [List.any_eq_true]
  constructor
  · rintro ⟨d, hd, hcond⟩
    rw [List.mem_map] at hd
    obtain ⟨e, he, rfl⟩ := hd
    rw [List.mem_filter] at he
    obtain ⟨he1, he2⟩ := he
    have he2' : e.1 = i := by simpa using he2
    refine ⟨e.2, ?_, ?_⟩
    · rw [← he2']
      exact he1
    · intro dt hdt
      rw [hdt] at hcond
      simpa using hcond
  · rintro ⟨d, hd, hcond⟩
    refine ⟨d, ?_, ?_⟩
    · rw [List.mem_map]
      exact ⟨(i, d), List.mem_filter.mpr ⟨hd, by simp⟩, rfl⟩
    · cases hft : find_task db d with
      | none => rfl
      | some dt => simpa using hcond dt hft

/-- Overwriting a status with a non-COMPLETED value cannot remove an
uncompleted dependency. -/
theorem has_uncompleted_set_of (db : DB) (i : Nat) (s : TaskStatus)
    (hs : s ≠ TaskStatus.completed) (j : Nat)
    (h : has_uncompleted_dependency db j) :
    has_uncompleted_dependency (set_task_status db i s) j := by
  obtain ⟨d, hd, hcond⟩ := h
  refine ⟨d, hd, ?_⟩
  intro dt hdt
  rw [find_task_set_status] at hdt
  obtain ⟨dt0, hdt0, rfl⟩ := Option.map_eq_some'.mp hdt
  by_cases hid : (dt0.id == i) = true
  · simpa [hid] using hs
  · simpa [hid] using hcond dt0 hdt0

/-- Releasing a blocked task whose dependencies are all completed does not
create an uncompleted dependency for it. -/
theorem not_has_uncompleted_release (db : DB) (t : Task)
    (hfind : find_task db t.id = some t) (hb : t.status = TaskStatus.blocked)
    (h : ¬ has_uncompleted_dependency db t.id) :
    ¬ has_uncompleted_dependency (set_task_status db t.id TaskStatus.pending) t.id := by
  have hall : ∀ d, (t.id, d) ∈ db.task_dependency →
      ∃ dt, find_task db d = some dt ∧ dt.status = TaskStatus.completed := by
    intro d hd
    by_contra hno
    exact h ⟨d, hd, fun dt hdt hstat => hno ⟨dt, hdt, hstat⟩⟩
  rintro ⟨d, hd, hcond⟩
  obtain ⟨dt, hdt, hcomp⟩ := hall d hd
  have hdid : dt.id = d := find_task_id hdt
  by_cases hdi : d = t.id
  · subst hdi
    rw [hfind] at hdt
    cases hdt
    rw [hb] at hcomp
    exact absurd hcomp (by decide)
  · have hfd : find_task (set_task_status db t.id TaskStatus.pending) d = some dt := by
      rw [find_task_set_status, hdt]
      simp [hdid, hdi]
    exact (hcond dt hfd) hcomp

/-- Branch equations of `check_and_update_task_status`. -/
theorem check_eq_block {db : DB} {t : Task}
    (hu : uncompleted_deps db t.id = true) (hb : t.status ≠ TaskStatus.blocked) :
    check_and_update_task_status db t =
      (false, set_task_status db t.id TaskStatus.blocked) := by
  unfold check_and_update_task_status
  rw [hu, show (t.status != TaskStatus.blocked) = true by simpa [bne_iff_ne] using hb]
  rfl

theorem check_eq_stay_blocked {db : DB} {t : Task}
    (hu : uncompleted_deps db t.id = true) (hb : t.status = TaskStatus.blocked) :
    check_and_update_task_status db t = (false, db) := by
  unfold check_and_update_task_status
  rw [hu, show (t.status != TaskStatus.blocked) = false by simp [hb]]
  rfl

theorem check_eq_release {db : DB} {t : Task}
    (hu : uncompleted_deps db t.id = false) (hb : t.status = TaskStatus.blocked) :
    check_and_update_task_status db t =
      (true, set_task_status db t.id TaskStatus.pending) := by
  unfold check_and_update_task_status
  rw [hu, show (t.status == TaskStatus.blocked) = true by simp [hb]]
  rfl

theorem check_eq_noop {db : DB} {t : Task}
    (hu : uncompleted_deps db t.id = false) (hb : t.status ≠ TaskStatus.blocked) :
    check_and_update_task_status db t = (false, db) := by
  unfold check_and_update_task_status
  rw [hu, show (t.status == TaskStatus.blocked) = false by simp [hb]]
  rfl

/-- Looking up the task that was just overwritten. -/
theorem find_task_set_self {db : DB} {t : Task} {s : TaskStatus}
    (hfind : find_task db t.id = some t) :
    find_task (set_task_status db t.id s) t.id = some { t with status := s } := by
  rw [find_task_set_status, hfind]
  simp

/-- C2: after `check_and_update_task_status` runs on a stored task, the task
is BLOCKED iff it still has an uncompleted (or dangling) dependency; the
call returns `true` exactly when a blocked task had no uncompleted
dependency, and in that case the task is reset to the default PENDING
state. -/
theorem check_and_update_task_status_spec (db : DB) (t : Task)
    (hfind : find_task db t.id = some t) :
    (status_of (check_and_update_task_status db t).2 t.id = some TaskStatus.blocked ↔
      has_uncompleted_dependency (check_and_update_task_status db t).2 t.id) ∧
    ((check_and_update_task_status db t).1 = true ↔
      (t.status = TaskStatus.blocked ∧ ¬ has_uncompleted_dependency db t.id)) ∧
    ((check_and_update_task_status db t).1 = true →
      status_of (check_and_update_task_status db t).2 t.id = some TaskStatus.pending) := by
  by_cases hu : uncompleted_deps db t.id = true
  · have huP : has_uncompleted_dependency db t.id := (uncompleted_deps_iff db t.id).mp hu
    by_cases hb : t.status = TaskStatus.blocked
    · rw [check_eq_stay_blocked hu hb]
      refine ⟨?_, ?_, ?_⟩
      · refine iff_of_true ?_ huP
        unfold status_of
        rw [hfind]
        simp [hb]
      · exact iff_of_false (by simp) (fun hx => hx.2 huP)
      · intro hx; cases hx
    · rw [check_eq_block hu hb]
      refine ⟨?_, ?_, ?_⟩
      · refine iff_of_true ?_ (has_uncompleted_set_of db t.id TaskStatus.blocked (by decide) t.id huP)
        unfold status_of
        rw [find_task_set_self hfind]
        rfl
      · exact iff_of_false (by simp) (fun hx => hx.2 huP)
      · intro hx; cases hx
  · have hu' : uncompleted_deps db t.id = false := by
      cases hq : uncompleted_deps db t.id
      · rfl
      · exact absurd hq hu
    have huP : ¬ has_uncompleted_dependency db t.id :=
      fun hx => hu ((uncompleted_deps_iff db t.id).mpr hx)
    by_cases hb : t.status = TaskStatus.blocked
    · rw [check_eq_release hu' hb]
      refine ⟨?_, ?_, ?_⟩
      · refine iff_of_false ?_ (not_has_uncompleted_release db t hfind hb huP)
        unfold status_of
        rw [find_task_set_self hfind]
        simp
      · exact iff_of_true rfl ⟨hb, huP⟩
      · intro _
        unfold status_of
        rw [find_task_set_self hfind]
        rfl
    · rw [check_eq_noop hu' hb]
      refine ⟨?_, ?_, ?_⟩
      · refine iff_of_false ?_ huP
        unfold status_of
        rw [hfind]
        simpa using fun hx => hb hx
      · exact iff_of_false (by simp) (fun hx => hb hx.1)
      · intro hx; cases hx

/-- C2 witness: a blocked task whose only dependency is completed is
released to PENDING and reported. -/
def c2DB : DB :=
  { tasks := [{ id := 1, title := "dep", status := TaskStatus.completed, owner_id := 1 },
              { id := 2, title := "blk", status := TaskStatus.blocked, owner_id := 1 }]
    task_dependency := [(2, 1)]
    reminders := [], reminder_events := [], projects := [], contacts := [] }

def c2Task : Task := { id := 2, title := "blk", status := TaskStatus.blocked, owner_id := 1 }

theorem check_and_update_task_status_spec_witness :
    (status_of (check_and_update_task_status c2DB c2Task).2 c2Task.id = some TaskStatus.blocked ↔
      has_uncompleted_dependency (check_and_update_task_status c2DB c2Task).2 c2Task.id) ∧
    ((check_and_update_task_status c2DB c2Task).1 = true ↔
      (c2Task.status = TaskStatus.blocked ∧ ¬ has_uncompleted_dependency c2DB c2Task.id)) ∧
    ((check_and_update_task_status c2DB c2Task).1 = true →
      status_of (check_and_update_task_status c2DB c2Task).2 c2Task.id =
        some TaskStatus.pending) :=
  check_and_update_task_status_spec c2DB c2Task (by decide)

/-- C9: running `check_and_update_task_status` a second time on the task's
refreshed row, with nothing else changed, changes nothing and reports
`false`. -/
theorem check_and_update_task_status_idempotent (db : DB) (t : Task)
    (hfind : find_task db t.id = some t) :
    ∃ t1, find_task (check_and_update_task_status db t).2 t.id = some t1 ∧
      check_and_update_task_status (check_and_update_task_status db t).2 t1 =
        (false, (check_and_update_task_status db t).2) := by
  by_cases hu : uncompleted_deps db t.id = true
  · by_cases hb : t.status = TaskStatus.blocked
    · rw [check_eq_stay_blocked hu hb]
      exact ⟨t, hfind, check_eq_stay_blocked hu hb⟩
    · rw [check_eq_block hu hb]
      refine ⟨{ t with status := TaskStatus.blocked }, find_task_set_self hfind, ?_⟩
      have hu2 : uncompleted_deps (set_task_status db t.id TaskStatus.blocked)
          ({ t with status := TaskStatus.blocked } : Task).id = true := by
        refine (uncompleted_deps_iff _ _).mpr ?_
        exact has_uncompleted_set_of db t.id TaskStatus.blocked (by decide) t.id
          ((uncompleted_deps_iff db t.id).mp hu)
      exact check_eq_stay_blocked hu2 rfl
  · have hu' : uncompleted_deps db t.id = false := by
      cases hq : uncompleted_deps db t.id
      · rfl
      · exact absurd hq hu
    have huP : ¬ has_uncompleted_dependency db t.id :=
      fun hx => hu ((uncompleted_deps_iff db t.id).mpr hx)
    by_cases hb : t.status = TaskStatus.blocked
    · rw [check_eq_release hu' hb]
      refine ⟨{ t with status := TaskStatus.pending }, find_task_set_self hfind, ?_⟩
      have hu2 : uncompleted_deps (set_task_status db t.id TaskStatus.pending)
          ({ t with status := TaskStatus.pending } : Task).id = false := by
        have hnot := not_has_uncompleted_release db t hfind hb huP
        cases hq : uncompleted_deps (set_task_status db t.id TaskStatus.pending) t.id
        · rfl
        · exact absurd ((uncompleted_deps_iff _ _).mp hq) hnot
      exact check_eq_noop hu2 (by simp)
    · rw [check_eq_noop hu' hb]
      exact ⟨t, hfind, check_eq_noop hu' hb⟩

/-- C9 witness: second run on the released two-task store is a no-op
returning `false`. -/
def c9DB : DB :=
  { tasks := [{ id := 1, title := "dep", status := TaskStatus.completed, owner_id := 1 },
              { id := 2, title := "blk", status := TaskStatus.blocked, owner_id := 1 }]
    task_dependency := [(2, 1)]
    reminders := [], reminder_events := [], projects := [], contacts := [] }

def c9Task : Task := { id := 2, title := "blk", status := TaskStatus.blocked, owner_id := 1 }

theorem check_and_update_task_status_idempotent_witness :
    ∃ t1, find_task (check_and_update_task_status c9DB c9Task).2 c9Task.id = some t1 ∧
      check_and_update_task_status (check_and_update_task_status c9DB c9Task).2 t1 =
        (false, (check_and_update_task_status c9DB c9Task).2) :=
  check_and_update_task_status_idempotent c9DB c9Task (by decide)

/-! ## C6: completing a task reschedules its relative reminders -/

/-- The status recomputation helper never touches the reminders table. -/
theorem check_reminders_const (db : DB) (t : Task) :
    (check_and_update_task_status db t).2.reminders = db.reminders := by
  unfold check_and_update_task_status
  split
  · split <;> rfl
  · split <;> rfl

/-- The dependent-status cascade never touches the reminders table. -/
theorem cascade_fold_reminders :
    ∀ (l : List Task) (acc : List Task × DB),
      ((l.foldl cascade_step acc).2).reminders = acc.2.reminders := by
  intro l
  induction l with
  | nil => intro acc; rfl
  | cons a l ih =>
      intro acc
      rw [List.foldl_cons, ih]
      unfold cascade_step
      cases h : find_task acc.2 a.id with
      | none => rfl
      | some live => exact check_reminders_const acc.2 live

/-- After a completing update, the reminders table is exactly the original
one with every matching relative reminder retriggered. -/
theorem update_task_apply_reminders (db : DB) (task_id : Nat) (tu : TaskUpdate)
    (now : DT) (db_task : Task) :
    (update_task_apply db task_id tu now db_task true).2.reminders =
      db.reminders.map (retrigger_relative task_id now) := by
  unfold update_task_apply
  simp only [reduceIte]
  rw [cascade_fold_reminders]
  rfl

/-- C6: when `update_task` flips a task to COMPLETED at instant `now`, every
active RECURRING_RELATIVE reminder anchored to that task ends up stored
with `trigger_datetime = now + delay`, a cleared `last_notified_at`, and
`is_active` still true. -/
theorem update_task_relative_reminders_spec (db : DB) (task_id user_id : Nat)
    (t : Task) (now : DT) (r : Reminder)
    (hfind : find_task_owned db task_id user_id = some t)
    (hnc : t.status ≠ TaskStatus.completed)
    (hr : r ∈ db.reminders)
    (hrel : r.relative_to_task_completion_id = some task_id)
    (hty : r.reminder_type = ReminderType.recurring_relative)
    (hact : r.is_active = true) :
    ({ r with
        trigger_datetime := some (now + r.relative_delay_minutes.getD 0)
        last_notified_at := none } : Reminder) ∈
      (update_task db task_id { status := some TaskStatus.completed } user_id now).2.reminders ∧
    ({ r with
        trigger_datetime := some (now + r.relative_delay_minutes.getD 0)
        last_notified_at := none } : Reminder).is_active = true := by
  have hstep : update_task db task_id { status := some TaskStatus.completed } user_id now =
      update_task_apply db task_id { status := some TaskStatus.completed } now t true := by
    have h1 : update_task db task_id { status := some TaskStatus.completed } user_id now =
        update_task_found db task_id { status := some TaskStatus.completed } user_id now t := by
      unfold update_task
      rw [hfind]
    rw [h1]
    unfold update_task_found
    rw [show task_completion_requested { status := some TaskStatus.completed } t.status = true by
      simpa [task_completion_requested, bne_iff_ne] using hnc]
    rfl
  refine ⟨?_, hact⟩
  rw [hstep, update_task_apply_reminders]
  refine List.mem_map.mpr ⟨r, hr, ?_⟩
  unfold retrigger_relative
  rw [show (r.relative_to_task_completion_id == some task_id
      && r.reminder_type == ReminderType.recurring_relative
      && r.is_active) = true by simp [hrel, hty, hact]]
  rfl

/-- C6 witness: a 60-minute relative reminder on task 1, completed at
instant 1000, is rescheduled to 1060 with notification state cleared. -/
def c6DB : DB :=
  { tasks := [{ id := 1, title := "X", status := TaskStatus.pending, owner_id := 1 }]
    task_dependency := []
    reminders := [{ id := 5
                    reminder_type := ReminderType.recurring_relative
                    trigger_datetime := none
                    relative_delay_minutes := some 60
                    relative_to_task_completion_id := some 1
                    last_notified_at := some 7
                    owner_id := 1 }]
    reminder_events := [], projects := [], contacts := [] }

def c6Reminder : Reminder :=
  { id := 5
    reminder_type := ReminderType.recurring_relative
    trigger_datetime := none
    relative_delay_minutes := some 60
    relative_to_task_completion_id := some 1
    last_notified_at := some 7
    owner_id := 1 }

theorem update_task_relative_reminders_spec_witness :
    ({ c6Reminder with
        trigger_datetime := some ((1000 : DT) + c6Reminder.relative_delay_minutes.getD 0)
        last_notified_at := none } : Reminder) ∈
      (update_task c6DB 1 { status := some TaskStatus.completed } 1 1000).2.reminders ∧
    ({ c6Reminder with
        trigger_datetime := some ((1000 : DT) + c6Reminder.relative_delay_minutes.getD 0)
        last_notified_at := none } : Reminder).is_active = true :=
  update_task_relative_reminders_spec c6DB 1 1
    { id := 1, title := "X", status := TaskStatus.pending, owner_id := 1 } 1000 c6Reminder
    (by decide) (by decide) (by decide) (by decide) (by decide) (by decide)

/-! ## C7: scheduler selection -/

theorem mem_add_persistent {now : DT} {acc : List Reminder} {y x : Reminder} :
    x ∈ add_persistent now acc y ↔ x ∈ acc ∨ (x = y ∧ persistent_due now y = true) := by
  unfold add_persistent
  split
  next h =>
    rw [Bool.and_eq_true] at h
    obtain ⟨hp, _⟩ := h
    rw [List.mem_append, List.mem_singleton]
    constructor
    · rintro (h1 | rfl)
      · exact Or.inl h1
      · exact Or.inr ⟨rfl, hp⟩
    · rintro (h1 | ⟨rfl, _⟩)
      · exact Or.inl h1
      · exact Or.inr rfl
  next h =>
    constructor
    · exact Or.inl
    · rintro (h1 | ⟨rfl, hp⟩)
      · exact h1
      · have hc : acc.contains x = true := by
          cases hq : acc.contains x
          · exact absurd (by rw [hp, hq]; rfl) h
          · rfl
        simpa using hc

theorem mem_foldl_add_persistent (now : DT) :
    ∀ (l acc : List Reminder) (x : Reminder),
      x ∈ l.foldl (add_persistent now) acc ↔
        x ∈ acc ∨ (x ∈ l ∧ persistent_due now x = true) := by
  intro l
  induction l with
  | nil => intro acc x; simp
  | cons a l ih =>
      intro acc x
      rw [List.foldl_cons, ih, mem_add_persistent]
      constructor
      · rintro ((h1 | ⟨rfl, hp⟩) | ⟨h1, hp⟩)
        · exact Or.inl h1
        · exact Or.inr ⟨List.mem_cons_self _ _, hp⟩
        · exact Or.inr ⟨List.mem_cons_of_mem _ h1, hp⟩
      · rintro (h1 | ⟨h1, hp⟩)
        · exact Or.inl (Or.inl h1)
        · rcases List.mem_cons.mp h1 with rfl | h2
          · exact Or.inl (Or.inr ⟨rfl, hp⟩)
          · exact Or.inr ⟨h2, hp⟩

theorem nodup_add_persistent {now : DT} {acc : List Reminder} {y : Reminder}
    (h : acc.Nodup) : (add_persistent now acc y).Nodup := by
  unfold add_persistent
  split
  next hcond =>
    have hny : y ∉ acc := by
      rw [Bool.and_eq_true] at hcond
      simpa using hcond.2
    simp [List.nodup_append, h, hny]
  next => exact h

theorem nodup_foldl_add_persistent (now : DT) :
    ∀ (l acc : List Reminder), acc.Nodup →
      (l.foldl (add_persistent now) acc).Nodup := by
  intro l
  induction l with
  | nil => intro acc h; exact h
  | cons a l ih =>
      intro acc h
      rw [List.foldl_cons]
      exact ih _ (nodup_add_persistent h)

theorem due_query_mem_iff (db : DB) (now : DT) (r : Reminder) :
    r ∈ due_query db now ↔
      r ∈ db.reminders ∧ r.is_active = true ∧
      (∃ t0, r.trigger_datetime = some t0 ∧ t0 ≤ now) ∧
      (r.snoozed_until = none ∨ ∃ s0, r.snoozed_until = some s0 ∧ s0 ≤ now) := by
  unfold due_query
  rw [List.mem_filter]
  have htrig : ((match r.trigger_datetime with
      | some t0 => decide (t0 ≤ now)
      | none => false) = true) ↔ ∃ t0, r.trigger_datetime = some t0 ∧ t0 ≤ now := by
    cases h : r.trigger_datetime <;> simp
  have hsnz : ((match r.snoozed_until with
      | none => true
      | some s0 => decide (s0 ≤ now)) = true) ↔
      (r.snoozed_until = none ∨ ∃ s0, r.snoozed_until = some s0 ∧ s0 ≤ now) := by
    cases h : r.snoozed_until <;> simp
  constructor
  · rintro ⟨h1, h2⟩
    rw [Bool.and_eq_true, Bool.and_eq_true] at h2
    exact ⟨h1, h2.1.1, htrig.mp h2.1.2, hsnz.mp h2.2⟩
  · rintro ⟨h1, h2, h3, h4⟩
    refine ⟨h1, ?_⟩
    rw [Bool.and_eq_true, Bool.and_eq_true]
    exact ⟨⟨h2, htrig.mpr h3⟩, hsnz.mpr h4⟩

theorem newly_due_iff (r : Reminder) :
    newly_due r = true ↔
      (r.last_notified_at = none ∨
        ∃ ln t0, r.last_notified_at = some ln ∧ r.trigger_datetime = some t0 ∧ ln < t0) := by
  unfold newly_due
  cases hl : r.last_notified_at with
  | none => simp
  | some ln => cases ht : r.trigger_datetime <;> simp

theorem persistent_due_iff (now : DT) (r : Reminder) :
    persistent_due now r = true ↔
      ∃ f ln, r.remind_frequency_minutes = some f ∧ r.last_notified_at = some ln ∧
        ln + f ≤ now := by
  unfold persistent_due
  cases hf : r.remind_frequency_minutes with
  | none => simp
  | some f => cases hl : r.last_notified_at <;> simp

theorem reminders_to_notify_mem (db : DB) (now : DT) (r : Reminder) :
    r ∈ reminders_to_notify db now ↔
      r ∈ due_query db now ∧ (newly_due r = true ∨ persistent_due now r = true) := by
  unfold reminders_to_notify
  rw [mem_foldl_add_persistent, List.mem_filter]
  constructor
  · rintro (⟨h1, h2⟩ | ⟨h1, h2⟩)
    · exact ⟨h1, Or.inl h2⟩
    · exact ⟨h1, Or.inr h2⟩
  · rintro ⟨h1, h2 | h2⟩
    · exact Or.inl ⟨h1, h2⟩
    · by_cases hn : newly_due r = true
      · exact Or.inl ⟨h1, hn⟩
      · exact Or.inr ⟨h1, h2⟩

/-- The selection predicate of the claim, read off §4.5 steps 1–3. -/
def selected_for_notification (db : DB) (now : DT) (r : Reminder) : Prop :=
  r ∈ db.reminders ∧ r.is_active = true ∧
  (∃ t0, r.trigger_datetime = some t0 ∧ t0 ≤ now) ∧
  (r.snoozed_until = none ∨ ∃ s0, r.snoozed_until = some s0 ∧ s0 ≤ now) ∧
  ((r.last_notified_at = none ∨
      ∃ ln t0, r.last_notified_at = some ln ∧ r.trigger_datetime = some t0 ∧ ln < t0) ∨
   (∃ f ln, r.remind_frequency_minutes = some f ∧ r.last_notified_at = some ln ∧
      ln + f ≤ now))

/-- C7: in one scheduler run, a reminder is selected iff it is active, due,
not snoozed past `now`, and newly due or persistently re-due; a selected
reminder occurs exactly once in the notification list. -/
theorem scheduler_selection_spec (db : DB) (now : DT) (r : Reminder)
    (hnd : db.reminders.Nodup) :
    (r ∈ reminders_to_notify db now ↔ selected_for_notification db now r) ∧
    (r ∈ reminders_to_notify db now → (reminders_to_notify db now).count r = 1) := by
  have hsel : r ∈ reminders_to_notify db now ↔ selected_for_notification db now r := by
    rw [reminders_to_notify_mem, due_query_mem_iff]
    unfold selected_for_notification
    rw [newly_due_iff, persistent_due_iff]
    constructor
    · rintro ⟨⟨h1, h2, h3, h4⟩, h5⟩
      exact ⟨h1, h2, h3, h4, h5⟩
    · rintro ⟨h1, h2, h3, h4, h5⟩
      exact ⟨⟨h1, h2, h3, h4⟩, h5⟩
  refine ⟨hsel, fun hmem => ?_⟩
  have hnodup : (reminders_to_notify db now).Nodup := by
    unfold reminders_to_notify
    exact nodup_foldl_add_persistent now _ _ ((hnd.filter _).filter _)
  exact List.count_eq_one_of_mem hnodup hmem

/-- C7 witness: at minute 35, reminder 11 is newly due and reminder 12 is
persistently re-due; reminder 11 is selected and listed once. -/
def c7Reminder : Reminder :=
  { id := 11, reminder_type := ReminderType.one_time, trigger_datetime := some 10
    owner_id := 1 }

def c7DB : DB :=
  { tasks := [], task_dependency := []
    reminders := [c7Reminder,
                  { id := 12, reminder_type := ReminderType.one_time,
                    trigger_datetime := some 10, last_notified_at := some 20,
                    remind_frequency_minutes := some 10, owner_id := 1 }]
    reminder_events := [], projects := [], contacts := [] }

theorem scheduler_selection_spec_witness :
    (c7Reminder ∈ reminders_to_notify c7DB 35 ↔ selected_for_notification c7DB 35 c7Reminder) ∧
    (c7Reminder ∈ reminders_to_notify c7DB 35 → (reminders_to_notify c7DB 35).count c7Reminder = 1) :=
  scheduler_selection_spec c7DB 35 c7Reminder (by decide)

/-! ## C8: scheduler bookkeeping is dispatch-independent -/

theorem notify_fold_events_mono (now : DT) (dispatch : Reminder → Bool) :
    ∀ (l : List Reminder) (acc : DB) (e : ReminderEvent),
      e ∈ acc.reminder_events →
      e ∈ (l.foldl (notify_step now dispatch) acc).reminder_events := by
  intro l
  induction l with
  | nil => intro acc e he; exact he
  | cons a l ih =>
      intro acc e he
      rw [List.foldl_cons]
      apply ih
      unfold notify_step
      simp [he]

theorem notify_fold_event (now : DT) (dispatch : Reminder → Bool) :
    ∀ (l : List Reminder) (acc : DB) (r : Reminder),
      r ∈ l →
      triggered_event r now ∈ (l.foldl (notify_step now dispatch) acc).reminder_events := by
  intro l
  induction l with
  | nil => intro acc r h; cases h
  | cons a l ih =>
      intro acc r h
      rw [List.foldl_cons]
      rcases List.mem_cons.mp h with rfl | h2
      · apply notify_fold_events_mono
        unfold notify_step
        simp
      · exact ih _ _ h2

theorem notify_step_pres_last (now : DT) (dispatch : Reminder → Bool) (db : DB)
    (a : Reminder) (rid : Nat)
    (h : ∀ x ∈ db.reminders, x.id = rid → x.last_notified_at = some now) :
    ∀ x ∈ (notify_step now dispatch db a).reminders,
      x.id = rid → x.last_notified_at = some now := by
  intro x hx hxid
  unfold notify_step at hx
  obtain ⟨y, hy, rfl⟩ := List.mem_map.mp hx
  by_cases hya : (y.id == a.id) = true
  · rw [if_pos hya]
  · rw [if_neg hya] at hxid ⊢
    exact h y hy hxid

theorem notify_step_sets_last (now : DT) (dispatch : Reminder → Bool) (db : DB)
    (a : Reminder) :
    ∀ x ∈ (notify_step now dispatch db a).reminders,
      x.id = a.id → x.last_notified_at = some now := by
  intro x hx hxid
  unfold notify_step at hx
  obtain ⟨y, hy, rfl⟩ := List.mem_map.mp hx
  by_cases hya : (y.id == a.id) = true
  · rw [if_pos hya]
  · rw [if_neg hya] at hxid
    exact absurd (by simpa using hxid) (by simpa using hya)

theorem notify_fold_pres_last (now : DT) (dispatch : Reminder → Bool) (rid : Nat) :
    ∀ (l : List Reminder) (acc : DB),
      (∀ x ∈ acc.reminders, x.id = rid → x.last_notified_at = some now) →
      ∀ x ∈ (l.foldl (notify_step now dispatch) acc).reminders,
        x.id = rid → x.last_notified_at = some now := by
  intro l
  induction l with
  | nil => intro acc h; exact h
  | cons a l ih =>
      intro acc h
      rw [List.foldl_cons]
      exact ih _ (notify_step_pres_last now dispatch acc a rid h)

theorem notify_fold_last (now : DT) (dispatch : Reminder → Bool) :
    ∀ (l : List Reminder) (acc : DB) (r : Reminder), r ∈ l →
      ∀ x ∈ (l.foldl (notify_step now dispatch) acc).reminders,
        x.id = r.id → x.last_notified_at = some now := by
  intro l
  induction l with
  | nil => intro acc r h; cases h
  | cons a l ih =>
      intro acc r h
      rw [List.foldl_cons]
      rcases List.mem_cons.mp h with rfl | h2
      · exact notify_fold_pres_last now dispatch r.id l _
          (notify_step_sets_last now dispatch acc r)
      · exact ih _ _ h2

/-- C8: every reminder selected in a run gets its TRIGGERED event (stamped
with its current `trigger_datetime` as expected instant and `now` as action
instant) and its `last_notified_at` set to `now`, and the run's final store
does not depend on the dispatch outcomes at all — a failed dispatch changes
nothing, so it cannot cause an extra immediate re-delivery. -/
theorem scheduler_bookkeeping_spec (db : DB) (now : DT) (dispatch : Reminder → Bool)
    (r : Reminder) (hr : r ∈ reminders_to_notify db now) :
    triggered_event r now ∈ (check_due_reminders_job db now dispatch).reminder_events ∧
    (∀ x ∈ (check_due_reminders_job db now dispatch).reminders,
      x.id = r.id → x.last_notified_at = some now) ∧
    check_due_reminders_job db now dispatch =
      check_due_reminders_job db now (fun _ => true) := by
  have hne : (reminders_to_notify db now).isEmpty = false := by
    cases hl : reminders_to_notify db now with
    | nil => rw [hl] at hr; cases hr
    | cons a l => rfl
  have hjob : ∀ d : Reminder → Bool, check_due_reminders_job db now d =
      (reminders_to_notify db now).foldl (notify_step now d) db := by
    intro d
    have h0 : check_due_reminders_job db now d =
        if (reminders_to_notify db now).isEmpty = true then db
        else (reminders_to_notify db now).foldl (notify_step now d) db := rfl
    rw [h0, hne]
    rfl
  have hdisp : notify_step now dispatch = notify_step now (fun _ => true) := rfl
  refine ⟨?_, ?_, ?_⟩
  · rw [hjob]
    exact notify_fold_event now dispatch _ _ _ hr
  · rw [hjob]
    exact notify_fold_last now dispatch _ _ _ hr
  · rw [hjob, hjob, hdisp]

/-- C8 witness: the due one-time reminder gets its event and bookkeeping
even under an always-failing dispatcher. -/
def c8Reminder : Reminder :=
  { id := 21, reminder_type := ReminderType.one_time, trigger_datetime := some 10
    owner_id := 1 }

def c8DB : DB :=
  { tasks := [], task_dependency := []
    reminders := [c8Reminder]
    reminder_events := [], projects := [], contacts := [] }

theorem scheduler_bookkeeping_spec_witness :
    triggered_event c8Reminder 35 ∈
      (check_due_reminders_job c8DB 35 (fun _ => false)).reminder_events ∧
    (∀ x ∈ (check_due_reminders_job c8DB 35 (fun _ => false)).reminders,
      x.id = c8Reminder.id → x.last_notified_at = some 35) ∧
    check_due_reminders_job c8DB 35 (fun _ => false) =
      check_due_reminders_job c8DB 35 (fun _ => true) :=
  scheduler_bookkeeping_spec c8DB 35 (fun _ => false) c8Reminder (by decide)

end Zoltar
